import Mathlib

/-!
# privatedns/record_sets/main.go

A shallow embedding of the provisioning program `privatedns/record_sets/main.go`
and the properties of its runs.

The program talks to three collaborators: the process environment, the identity
library (`azidentity`) and the management clients (`armresources`,
`armprivatedns`).  None of them is part of the program, so a run is taken over an
arbitrary environment `Env` and an arbitrary `Provider`.  A provider answers every
call as a function of the whole history of calls issued so far, so that stateful
collaborators are covered.  Every call may succeed, return an error, or never
return (the long-running-operation pollers have no deadline).

A run records the calls issued (`Run.trace`), the lines written through the
standard logger (`Run.log`, without the date/time stamp the logger puts in front
of a line) and the way the process stopped (`Run.exit`).
-/

namespace RecordSets

/-! ## Values exchanged with the collaborators -/

/-- Go `error` value: only its text, which is what `log.Fatal(err)` prints. -/
structure GoError where
  message : String
deriving DecidableEq, Repr

/-- The value `azcore.TokenCredential` returned by the identity library. -/
structure TokenCredential where
  token : String
deriving DecidableEq, Repr

/-- The constants of `armprivatedns.RecordType`. -/
inductive RecordType where
  | A | AAAA | CNAME | MX | PTR | SOA | SRV | TXT
deriving DecidableEq, Repr

/-- An `armresources.ResourceGroup`: the fields are Go pointers, so each may be nil. -/
structure ResourceGroup where
  ID : Option String
  Location : Option String
deriving DecidableEq, Repr

/-- An `armprivatedns.PrivateZone`; `Location` is the field of the embedded
`TrackedResource`. -/
structure PrivateZone where
  ID : Option String
  Location : Option String
deriving DecidableEq, Repr

/-- An `armprivatedns.ARecord`. -/
structure ARecord where
  IPv4Address : Option String
deriving DecidableEq, Repr

/-- An `armprivatedns.RecordSetProperties`, restricted to the field the program sets. -/
structure RecordSetProperties where
  ARecords : List ARecord
deriving DecidableEq, Repr

/-- An `armprivatedns.RecordSet`. -/
structure RecordSet where
  ID : Option String
  Properties : Option RecordSetProperties
deriving DecidableEq, Repr

/-- An `http.Response`, of which nothing is read by the program. -/
structure HttpResponse where
  StatusCode : Nat
deriving DecidableEq, Repr

/-- The response of the delete poller; `RawResponse` is a Go pointer. -/
structure ResourceGroupsDeleteResponse where
  RawResponse : Option HttpResponse
deriving DecidableEq, Repr

/-- The handle of a long-running operation returned by a `Begin...` call. -/
structure Poller where
  operation : String
deriving DecidableEq, Repr

/-! ## Calls, events and providers -/

/-- The requests of the collaborating libraries.  Each carries the subscription its
client was built for and the arguments of the call (the context and the nil options
are left out).  `PrivateZonesBeginDelete` and `RecordSetsDelete` are operations of
the `armprivatedns` clients that the program has at hand but never uses. -/
inductive Call where
  | NewDefaultAzureCredential
  | ResourceGroupsCreateOrUpdate (subscriptionID resourceGroupName : String)
      (parameters : ResourceGroup)
  | PrivateZonesBeginCreateOrUpdate (subscriptionID resourceGroupName privateZoneName : String)
      (parameters : PrivateZone)
  | PrivateZonesPollUntilDone (freqSeconds : Nat)
  | RecordSetsCreateOrUpdate (subscriptionID resourceGroupName privateZoneName : String)
      (recordType : RecordType) (relativeRecordSetName : String) (parameters : RecordSet)
  | ResourceGroupsBeginDelete (subscriptionID resourceGroupName : String)
  | ResourceGroupsPollUntilDone (freqSeconds : Nat)
  | PrivateZonesBeginDelete (subscriptionID resourceGroupName privateZoneName : String)
  | RecordSetsDelete (subscriptionID resourceGroupName privateZoneName : String)
      (recordType : RecordType) (relativeRecordSetName : String)
deriving DecidableEq, Repr

/-- What a collaborator does with a call: it returns a value, returns an error, or
never returns. -/
inductive Reply (α : Type) where
  | ok (value : α)
  | err (e : GoError)
  | hang
deriving DecidableEq, Repr

/-- How a call that was issued ended. -/
inductive Status where
  | succeeded
  | failed (e : GoError)
  | blocked
deriving DecidableEq, Repr

/-- The status of a reply. -/
def Reply.status {α : Type} : Reply α → Status
  | .ok _ => .succeeded
  | .err e => .failed e
  | .hang => .blocked

/-- One entry of the trace of a run: the call issued and how it ended. -/
structure Event where
  call : Call
  status : Status
deriving DecidableEq, Repr

/-- The collaborators of the program.  The first argument of every operation is the
trace of the run up to the call. -/
structure Provider where
  NewDefaultAzureCredential : List Event → Reply TokenCredential
  ResourceGroupsCreateOrUpdate : List Event → String → TokenCredential → String →
    ResourceGroup → Reply ResourceGroup
  PrivateZonesBeginCreateOrUpdate : List Event → String → TokenCredential → String →
    String → PrivateZone → Reply Poller
  PrivateZonesPollUntilDone : List Event → Poller → Nat → Reply PrivateZone
  RecordSetsCreateOrUpdate : List Event → String → TokenCredential → String → String →
    RecordType → String → RecordSet → Reply RecordSet
  ResourceGroupsBeginDelete : List Event → String → TokenCredential → String → Reply Poller
  ResourceGroupsPollUntilDone : List Event → Poller → Nat →
    Reply ResourceGroupsDeleteResponse

/-- The process environment: the variables that are set, with their values. -/
abbrev Env := String → Option String

/-- Go `os.Getenv`: the value of the variable, or the empty string if it is not set. -/
def Getenv (env : Env) (key : String) : String :=
  (env key).getD ""

/-! ## The program -/

/-- Package variable `location`. -/
def location : String := "westus"

/-- Package variable `resourceGroupName`. -/
def resourceGroupName : String := "sample-resource-group"

/-- Package variable `privateZoneName`. -/
def privateZoneName : String := "sample-private-zone"

/-- Package variable `relativeRecordSetName`. -/
def relativeRecordSetName : String := "sample-relative-record-set"

/-- The poll interval `10*time.Second` passed to `PollUntilDone`, in seconds. -/
def pollSeconds : Nat := 10

/-- What a Go function of result type `(*T, error)` hands back: `none` when it never
returns, and otherwise the pair of the pointer and the error, each of which may be
nil. -/
abbrev Returned (α : Type) := Option (Option α × Option GoError)

/-- Function `createResourceGroup`, run after the trace `h`; the package variable
`subscriptionID` is a parameter.  The result comes with the extended trace. -/
def createResourceGroup (p : Provider) (subscriptionID : String) (cred : TokenCredential)
    (h : List Event) : Returned ResourceGroup × List Event :=
  let parameters : ResourceGroup := { ID := none, Location := some location }
  let call := Call.ResourceGroupsCreateOrUpdate subscriptionID resourceGroupName parameters
  match p.ResourceGroupsCreateOrUpdate h subscriptionID cred resourceGroupName parameters with
  | .hang => (none, h ++ [⟨call, .blocked⟩])
  | .err e => (some (none, some e), h ++ [⟨call, .failed e⟩])
  | .ok resourceGroupResp => (some (some resourceGroupResp, none), h ++ [⟨call, .succeeded⟩])

/-- Function `createPrivateZone`, run after the trace `h`. -/
def createPrivateZone (p : Provider) (subscriptionID : String) (cred : TokenCredential)
    (h : List Event) : Returned PrivateZone × List Event :=
  let parameters : PrivateZone := { ID := none, Location := some location }
  let call := Call.PrivateZonesBeginCreateOrUpdate subscriptionID resourceGroupName
    privateZoneName parameters
  match p.PrivateZonesBeginCreateOrUpdate h subscriptionID cred resourceGroupName
      privateZoneName parameters with
  | .hang => (none, h ++ [⟨call, .blocked⟩])
  | .err e => (some (none, some e), h ++ [⟨call, .failed e⟩])
  | .ok pollersResp =>
    let h1 := h ++ [⟨call, .succeeded⟩]
    let poll := Call.PrivateZonesPollUntilDone pollSeconds
    match p.PrivateZonesPollUntilDone h1 pollersResp pollSeconds with
    | .hang => (none, h1 ++ [⟨poll, .blocked⟩])
    | .err e => (some (none, some e), h1 ++ [⟨poll, .failed e⟩])
    | .ok resp => (some (some resp, none), h1 ++ [⟨poll, .succeeded⟩])

/-- Function `createRecordSets`, run after the trace `h`. -/
def createRecordSets (p : Provider) (subscriptionID : String) (cred : TokenCredential)
    (h : List Event) : Returned RecordSet × List Event :=
  let parameters : RecordSet := { ID := none, Properties := some { ARecords := [] } }
  let call := Call.RecordSetsCreateOrUpdate subscriptionID resourceGroupName privateZoneName
    RecordType.A relativeRecordSetName parameters
  match p.RecordSetsCreateOrUpdate h subscriptionID cred resourceGroupName privateZoneName
      RecordType.A relativeRecordSetName parameters with
  | .hang => (none, h ++ [⟨call, .blocked⟩])
  | .err e => (some (none, some e), h ++ [⟨call, .failed e⟩])
  | .ok resp => (some (some resp, none), h ++ [⟨call, .succeeded⟩])

/-- Function `cleanup`, run after the trace `h`.  Its pointer result is
`resp.RawResponse`, which may itself be nil on success. -/
def cleanup (p : Provider) (subscriptionID : String) (cred : TokenCredential)
    (h : List Event) : Returned HttpResponse × List Event :=
  let call := Call.ResourceGroupsBeginDelete subscriptionID resourceGroupName
  match p.ResourceGroupsBeginDelete h subscriptionID cred resourceGroupName with
  | .hang => (none, h ++ [⟨call, .blocked⟩])
  | .err e => (some (none, some e), h ++ [⟨call, .failed e⟩])
  | .ok pollerResp =>
    let h1 := h ++ [⟨call, .succeeded⟩]
    let poll := Call.ResourceGroupsPollUntilDone pollSeconds
    match p.ResourceGroupsPollUntilDone h1 pollerResp pollSeconds with
    | .hang => (none, h1 ++ [⟨poll, .blocked⟩])
    | .err e => (some (none, some e), h1 ++ [⟨poll, .failed e⟩])
    | .ok resp => (some (resp.RawResponse, none), h1 ++ [⟨poll, .succeeded⟩])

/-- A line written through the standard logger, by `log.Println` or by `log.Fatal`. -/
inductive LogLine where
  | Println (text : String)
  | Fatal (text : String)
deriving DecidableEq, Repr

/-- How the process stopped: `main` returned; `log.Fatal` ended it with `os.Exit(1)`;
a nil pointer was dereferenced; or a call never returned. -/
inductive Exit where
  | normal
  | fatal
  | panic
  | blocked
deriving DecidableEq, Repr

/-- A run of the program. -/
structure Run where
  trace : List Event
  log : List LogLine
  exit : Exit
deriving DecidableEq, Repr

/-- The tail of `main` from the read of `KEEP_RESOURCE` (lines 55 to 62), after the
trace `h` and the log `l`. -/
def mainCleanup (env : Env) (p : Provider) (subscriptionID : String) (cred : TokenCredential)
    (h : List Event) (l : List LogLine) : Run :=
  let keepResource := Getenv env "KEEP_RESOURCE"
  if keepResource.length = 0 then
    match cleanup p subscriptionID cred h with
    | (none, h1) => { trace := h1, log := l, exit := .blocked }
    | (some (_, some err), h1) =>
      { trace := h1, log := l ++ [.Fatal err.message], exit := .fatal }
    | (some (_, none), h1) =>
      { trace := h1, log := l ++ [.Println "cleaned up successfully."], exit := .normal }
  else
    { trace := h, log := l, exit := .normal }

/-- The part of `main` from the call of `createRecordSets` (lines 49 to 62). -/
def mainRecordSets (env : Env) (p : Provider) (subscriptionID : String)
    (cred : TokenCredential) (h : List Event) (l : List LogLine) : Run :=
  match createRecordSets p subscriptionID cred h with
  | (none, h1) => { trace := h1, log := l, exit := .blocked }
  | (some (_, some err), h1) =>
    { trace := h1, log := l ++ [.Fatal err.message], exit := .fatal }
  | (some (none, none), h1) => { trace := h1, log := l, exit := .panic }
  | (some (some recordSets, none), h1) =>
    match recordSets.ID with
    | none => { trace := h1, log := l, exit := .panic }
    | some id =>
      mainCleanup env p subscriptionID cred h1 (l ++ [.Println ("record sets: " ++ id)])

/-- The part of `main` from the call of `createPrivateZone` (lines 43 to 62). -/
def mainPrivateZone (env : Env) (p : Provider) (subscriptionID : String)
    (cred : TokenCredential) (h : List Event) (l : List LogLine) : Run :=
  match createPrivateZone p subscriptionID cred h with
  | (none, h1) => { trace := h1, log := l, exit := .blocked }
  | (some (_, some err), h1) =>
    { trace := h1, log := l ++ [.Fatal err.message], exit := .fatal }
  | (some (none, none), h1) => { trace := h1, log := l, exit := .panic }
  | (some (some privateZone, none), h1) =>
    match privateZone.ID with
    | none => { trace := h1, log := l, exit := .panic }
    | some id =>
      mainRecordSets env p subscriptionID cred h1 (l ++ [.Println ("private zone: " ++ id)])

/-- The part of `main` from the call of `createResourceGroup` (lines 37 to 62). -/
def mainResourceGroup (env : Env) (p : Provider) (subscriptionID : String)
    (cred : TokenCredential) (h : List Event) (l : List LogLine) : Run :=
  match createResourceGroup p subscriptionID cred h with
  | (none, h1) => { trace := h1, log := l, exit := .blocked }
  | (some (_, some err), h1) =>
    { trace := h1, log := l ++ [.Fatal err.message], exit := .fatal }
  | (some (none, none), h1) => { trace := h1, log := l, exit := .panic }
  | (some (some resourceGroup, none), h1) =>
    match resourceGroup.ID with
    | none => { trace := h1, log := l, exit := .panic }
    | some id =>
      mainPrivateZone env p subscriptionID cred h1 (l ++ [.Println ("resources group: " ++ id)])

/-- Function `main`.  `len(s) == 0` holds of the empty string only, as does
`s.length = 0`.  `log.Println` joins its operands with a blank; `log.Fatal` prints its
operand and ends the process; reading through a nil pointer (`*x.ID` with `ID` nil) is
a run-time panic, which ends the process as well. -/
def main (env : Env) (p : Provider) : Run :=
  let subscriptionID := Getenv env "AZURE_SUBSCRIPTION_ID"
  if subscriptionID.length = 0 then
    { trace := [], log := [.Fatal "AZURE_SUBSCRIPTION_ID is not set."], exit := .fatal }
  else
    match p.NewDefaultAzureCredential [] with
    | .hang =>
      { trace := [⟨Call.NewDefaultAzureCredential, .blocked⟩], log := [], exit := .blocked }
    | .err err =>
      { trace := [⟨Call.NewDefaultAzureCredential, .failed err⟩],
        log := [.Fatal err.message], exit := .fatal }
    | .ok cred =>
      mainResourceGroup env p subscriptionID cred [⟨Call.NewDefaultAzureCredential, .succeeded⟩] []

/-! ## Sample environments and providers -/

/-- The environment with `AZURE_SUBSCRIPTION_ID` set to `sub` and `KEEP_RESOURCE` as
given (`none`: not set). -/
def sampleEnv (sub : String) (keep : Option String) : Env := fun key =>
  if key = "AZURE_SUBSCRIPTION_ID" then some sub
  else if key = "KEEP_RESOURCE" then keep
  else none

/-- The environment in which no variable is set. -/
def emptyEnv : Env := fun _ => none

/-- A provider whose every call succeeds at once, and which puts the given
identifiers in the resources it returns (`none`: the `id` field is absent from the
response). -/
def succeedingProvider (groupID zoneID recordSetID : Option String) : Provider where
  NewDefaultAzureCredential _ := .ok ⟨"token"⟩
  ResourceGroupsCreateOrUpdate _ _ _ _ parameters := .ok { parameters with ID := groupID }
  PrivateZonesBeginCreateOrUpdate _ _ _ _ _ _ := .ok ⟨"zone-operation"⟩
  PrivateZonesPollUntilDone _ _ _ := .ok { ID := zoneID, Location := some "westus" }
  RecordSetsCreateOrUpdate _ _ _ _ _ _ _ parameters := .ok { parameters with ID := recordSetID }
  ResourceGroupsBeginDelete _ _ _ _ := .ok ⟨"delete-operation"⟩
  ResourceGroupsPollUntilDone _ _ _ := .ok ⟨some ⟨200⟩⟩

/-! ## The vocabulary of the properties -/

/-- The request for a credential, with the way it ended. -/
def credentialEvent (s : Status) : Event :=
  ⟨.NewDefaultAzureCredential, s⟩

/-- The resource-group create call that `createResourceGroup` issues. -/
def groupEvent (sub : String) (s : Status) : Event :=
  ⟨.ResourceGroupsCreateOrUpdate sub resourceGroupName ⟨none, some location⟩, s⟩

/-- The private-zone create call that `createPrivateZone` issues. -/
def zoneEvent (sub : String) (s : Status) : Event :=
  ⟨.PrivateZonesBeginCreateOrUpdate sub resourceGroupName privateZoneName ⟨none, some location⟩, s⟩

/-- The wait for the private-zone operation in `createPrivateZone`. -/
def zonePollEvent (s : Status) : Event :=
  ⟨.PrivateZonesPollUntilDone pollSeconds, s⟩

/-- The record-set create call that `createRecordSets` issues. -/
def recordSetEvent (sub : String) (s : Status) : Event :=
  ⟨.RecordSetsCreateOrUpdate sub resourceGroupName privateZoneName .A relativeRecordSetName
    ⟨none, some ⟨[]⟩⟩, s⟩

/-- The resource-group delete call that `cleanup` issues. -/
def deleteEvent (sub : String) (s : Status) : Event :=
  ⟨.ResourceGroupsBeginDelete sub resourceGroupName, s⟩

/-- The wait for the delete operation in `cleanup`. -/
def deletePollEvent (s : Status) : Event :=
  ⟨.ResourceGroupsPollUntilDone pollSeconds, s⟩

/-- The progress line of the resource group. -/
def groupLine (id : String) : LogLine := .Println ("resources group: " ++ id)

/-- The progress line of the private zone. -/
def zoneLine (id : String) : LogLine := .Println ("private zone: " ++ id)

/-- The progress line of the record set. -/
def recordSetLine (id : String) : LogLine := .Println ("record sets: " ++ id)

/-- The line that reports the cleanup. -/
def cleanedLine : LogLine := .Println "cleaned up successfully."

/-- What the logger receives when a call ends with status `s`: the error, through
`log.Fatal`, when the call failed. -/
def stopLog : Status → List LogLine
  | .failed e => [.Fatal e.message]
  | _ => []

/-- How the process stops when a call ends with a status `s` other than success. -/
def stopExit : Status → Exit
  | .failed _ => .fatal
  | _ => .blocked

/-- The step of the sequence a call belongs to: 1 the credential, 2 the resource
group, 3 the private zone with its wait, 4 the record set, 5 the delete of the
resource group with its wait.  The two operations the program never uses come
last. -/
def Call.step : Call → Nat
  | .NewDefaultAzureCredential => 1
  | .ResourceGroupsCreateOrUpdate _ _ _ => 2
  | .PrivateZonesBeginCreateOrUpdate _ _ _ _ => 3
  | .PrivateZonesPollUntilDone _ => 3
  | .RecordSetsCreateOrUpdate _ _ _ _ _ _ => 4
  | .ResourceGroupsBeginDelete _ _ => 5
  | .ResourceGroupsPollUntilDone _ => 5
  | .PrivateZonesBeginDelete _ _ _ => 6
  | .RecordSetsDelete _ _ _ _ _ => 6

/-- The call creates a resource group. -/
def Call.isResourceGroupCreate : Call → Bool
  | .ResourceGroupsCreateOrUpdate _ _ _ => true
  | _ => false

/-- The call starts the creation of a private zone. -/
def Call.isPrivateZoneCreate : Call → Bool
  | .PrivateZonesBeginCreateOrUpdate _ _ _ _ => true
  | _ => false

/-- The call waits for the creation of a private zone to end. -/
def Call.isPrivateZonePoll : Call → Bool
  | .PrivateZonesPollUntilDone _ => true
  | _ => false

/-- The call creates a record set. -/
def Call.isRecordSetCreate : Call → Bool
  | .RecordSetsCreateOrUpdate _ _ _ _ _ _ => true
  | _ => false

/-- The call asks for a resource to be deleted. -/
def Call.isDelete : Call → Bool
  | .ResourceGroupsBeginDelete _ _ => true
  | .PrivateZonesBeginDelete _ _ _ => true
  | .RecordSetsDelete _ _ _ _ _ => true
  | _ => false

/-- The status is an error. -/
def Status.isFailed : Status → Bool
  | .failed _ => true
  | _ => false

/-- The line was written by `log.Println`. -/
def LogLine.isProgress : LogLine → Bool
  | .Println _ => true
  | .Fatal _ => false

/-- The runs of `main` in an environment where `AZURE_SUBSCRIPTION_ID` reads `sub`
and `KEEP_RESOURCE` reads `keep`, one case for each place where the process can
stop.  `s` is the status of the call that did not succeed, and `g`, `z`, `r` are
the identifiers of the resource group, the private zone and the record set. -/
inductive Outcome (sub keep : String) : Run → Prop where
  | noSubscription (hsub : sub.length = 0) :
    Outcome sub keep ⟨[], [.Fatal "AZURE_SUBSCRIPTION_ID is not set."], .fatal⟩
  | credentialStop (s : Status) (hs : s ≠ .succeeded) :
    Outcome sub keep ⟨[credentialEvent s], stopLog s, stopExit s⟩
  | groupStop (s : Status) (hs : s ≠ .succeeded) :
    Outcome sub keep ⟨[credentialEvent .succeeded, groupEvent sub s], stopLog s, stopExit s⟩
  | groupNoID :
    Outcome sub keep ⟨[credentialEvent .succeeded, groupEvent sub .succeeded], [], .panic⟩
  | zoneStop (g : String) (s : Status) (hs : s ≠ .succeeded) :
    Outcome sub keep ⟨[credentialEvent .succeeded, groupEvent sub .succeeded, zoneEvent sub s],
      groupLine g :: stopLog s, stopExit s⟩
  | zonePollStop (g : String) (s : Status) (hs : s ≠ .succeeded) :
    Outcome sub keep ⟨[credentialEvent .succeeded, groupEvent sub .succeeded,
      zoneEvent sub .succeeded, zonePollEvent s], groupLine g :: stopLog s, stopExit s⟩
  | zoneNoID (g : String) :
    Outcome sub keep ⟨[credentialEvent .succeeded, groupEvent sub .succeeded,
      zoneEvent sub .succeeded, zonePollEvent .succeeded], [groupLine g], .panic⟩
  | recordSetStop (g z : String) (s : Status) (hs : s ≠ .succeeded) :
    Outcome sub keep ⟨[credentialEvent .succeeded, groupEvent sub .succeeded,
      zoneEvent sub .succeeded, zonePollEvent .succeeded, recordSetEvent sub s],
      groupLine g :: zoneLine z :: stopLog s, stopExit s⟩
  | recordSetNoID (g z : String) :
    Outcome sub keep ⟨[credentialEvent .succeeded, groupEvent sub .succeeded,
      zoneEvent sub .succeeded, zonePollEvent .succeeded, recordSetEvent sub .succeeded],
      [groupLine g, zoneLine z], .panic⟩
  | kept (g z r : String) (hkeep : keep.length ≠ 0) :
    Outcome sub keep ⟨[credentialEvent .succeeded, groupEvent sub .succeeded,
      zoneEvent sub .succeeded, zonePollEvent .succeeded, recordSetEvent sub .succeeded],
      [groupLine g, zoneLine z, recordSetLine r], .normal⟩
  | deleteStop (g z r : String) (hkeep : keep.length = 0) (s : Status) (hs : s ≠ .succeeded) :
    Outcome sub keep ⟨[credentialEvent .succeeded, groupEvent sub .succeeded,
      zoneEvent sub .succeeded, zonePollEvent .succeeded, recordSetEvent sub .succeeded,
      deleteEvent sub s],
      groupLine g :: zoneLine z :: recordSetLine r :: stopLog s, stopExit s⟩
  | deletePollStop (g z r : String) (hkeep : keep.length = 0) (s : Status)
      (hs : s ≠ .succeeded) :
    Outcome sub keep ⟨[credentialEvent .succeeded, groupEvent sub .succeeded,
      zoneEvent sub .succeeded, zonePollEvent .succeeded, recordSetEvent sub .succeeded,
      deleteEvent sub .succeeded, deletePollEvent s],
      groupLine g :: zoneLine z :: recordSetLine r :: stopLog s, stopExit s⟩
  | cleaned (g z r : String) (hkeep : keep.length = 0) :
    Outcome sub keep ⟨[credentialEvent .succeeded, groupEvent sub .succeeded,
      zoneEvent sub .succeeded, zonePollEvent .succeeded, recordSetEvent sub .succeeded,
      deleteEvent sub .succeeded, deletePollEvent .succeeded],
      [groupLine g, zoneLine z, recordSetLine r, cleanedLine], .normal⟩

/-- A provider whose every call returns the error `e`. -/
def failingProvider (e : GoError) : Provider where
  NewDefaultAzureCredential _ := .err e
  ResourceGroupsCreateOrUpdate _ _ _ _ _ := .err e
  PrivateZonesBeginCreateOrUpdate _ _ _ _ _ _ := .err e
  PrivateZonesPollUntilDone _ _ _ := .err e
  RecordSetsCreateOrUpdate _ _ _ _ _ _ _ _ := .err e
  ResourceGroupsBeginDelete _ _ _ _ := .err e
  ResourceGroupsPollUntilDone _ _ _ := .err e

/-- A provider that accepts every request, with identifiers in its responses, and
whose long-running operations end with the error `e` while they are polled. -/
def pollFailingProvider (e : GoError) : Provider where
  NewDefaultAzureCredential _ := .ok ⟨"token"⟩
  ResourceGroupsCreateOrUpdate _ _ _ _ parameters := .ok { parameters with ID := some "group-id" }
  PrivateZonesBeginCreateOrUpdate _ _ _ _ _ _ := .ok ⟨"zone-operation"⟩
  PrivateZonesPollUntilDone _ _ _ := .err e
  RecordSetsCreateOrUpdate _ _ _ _ _ _ _ parameters :=
    .ok { parameters with ID := some "record-set-id" }
  ResourceGroupsBeginDelete _ _ _ _ := .ok ⟨"delete-operation"⟩
  ResourceGroupsPollUntilDone _ _ _ := .err e

/-- The verdict of a reply: `some true` for a success, `some false` for an error,
`none` when the call does not return.  The value and the error are left out. -/
def Reply.verdict {α : Type} : Reply α → Option Bool
  | .ok _ => some true
  | .err _ => some false
  | .hang => none

/-- Two providers agree on which calls succeed and which fail: every call gets the same
verdict from both, whatever credential or poller (values handed out earlier by the
provider itself) the call is made with. -/
def SameVerdicts (p q : Provider) : Prop :=
  (∀ h, (p.NewDefaultAzureCredential h).verdict = (q.NewDefaultAzureCredential h).verdict) ∧
  (∀ h sub c d name parameters,
    (p.ResourceGroupsCreateOrUpdate h sub c name parameters).verdict =
      (q.ResourceGroupsCreateOrUpdate h sub d name parameters).verdict) ∧
  (∀ h sub c d group zone parameters,
    (p.PrivateZonesBeginCreateOrUpdate h sub c group zone parameters).verdict =
      (q.PrivateZonesBeginCreateOrUpdate h sub d group zone parameters).verdict) ∧
  (∀ h a b freq,
    (p.PrivateZonesPollUntilDone h a freq).verdict =
      (q.PrivateZonesPollUntilDone h b freq).verdict) ∧
  (∀ h sub c d group zone type name parameters,
    (p.RecordSetsCreateOrUpdate h sub c group zone type name parameters).verdict =
      (q.RecordSetsCreateOrUpdate h sub d group zone type name parameters).verdict) ∧
  (∀ h sub c d name,
    (p.ResourceGroupsBeginDelete h sub c name).verdict =
      (q.ResourceGroupsBeginDelete h sub d name).verdict) ∧
  (∀ h a b freq,
    (p.ResourceGroupsPollUntilDone h a freq).verdict =
      (q.ResourceGroupsPollUntilDone h b freq).verdict)

/-- The number of steps of a trace that were completed and are reported by a progress
line: the creation of the resource group, the end of the wait for the private zone,
the creation of the record set and the end of the wait for the delete. -/
def completedSteps (trace : List Event) : Nat :=
  (trace.filter fun e =>
    decide (e.status = .succeeded) &&
      (e.call.isResourceGroupCreate || e.call.isPrivateZonePoll || e.call.isRecordSetCreate ||
        decide (e.call = .ResourceGroupsPollUntilDone pollSeconds))).length

/-- The progress lines of a log. -/
def progressLines (log : List LogLine) : List LogLine :=
  log.filter LogLine.isProgress

/-! ## The runs of `main` -/

/-- Every run of `main` is one of the runs listed in `Outcome`. -/
theorem main_outcome (env : Env) (p : Provider) :
    Outcome (Getenv env "AZURE_SUBSCRIPTION_ID") (Getenv env "KEEP_RESOURCE") (main env p) := by
  unfold main
  by_cases hsub : (Getenv env "AZURE_SUBSCRIPTION_ID").length = 0
  · simp only [hsub, if_true]
    exact .noSubscription hsub
  simp only [hsub, if_false]
  generalize p.NewDefaultAzureCredential _ = credReply
  cases credReply with
  | hang => exact .credentialStop .blocked (by simp)
  | err e => exact .credentialStop (.failed e) (by simp)
  | ok cred =>
  simp only []
  unfold mainResourceGroup createResourceGroup
  simp only []
  generalize p.ResourceGroupsCreateOrUpdate _ _ _ _ _ = groupReply
  cases groupReply with
  | hang => exact .groupStop .blocked (by simp)
  | err e => exact .groupStop (.failed e) (by simp)
  | ok group =>
  simp only []
  cases hg : group.ID with
  | none => exact .groupNoID
  | some g =>
  simp only []
  unfold mainPrivateZone createPrivateZone
  simp only []
  generalize p.PrivateZonesBeginCreateOrUpdate _ _ _ _ _ _ = zoneReply
  cases zoneReply with
  | hang => exact .zoneStop g .blocked (by simp)
  | err e => exact .zoneStop g (.failed e) (by simp)
  | ok poller =>
  simp only []
  generalize p.PrivateZonesPollUntilDone _ _ _ = pollReply
  cases pollReply with
  | hang => exact .zonePollStop g .blocked (by simp)
  | err e => exact .zonePollStop g (.failed e) (by simp)
  | ok zone =>
  simp only []
  cases hz : zone.ID with
  | none => exact .zoneNoID g
  | some z =>
  simp only []
  unfold mainRecordSets createRecordSets
  simp only []
  generalize p.RecordSetsCreateOrUpdate _ _ _ _ _ _ _ _ = recordReply
  cases recordReply with
  | hang => exact .recordSetStop g z .blocked (by simp)
  | err e => exact .recordSetStop g z (.failed e) (by simp)
  | ok recordSet =>
  simp only []
  cases hr : recordSet.ID with
  | none => exact .recordSetNoID g z
  | some r =>
  simp only []
  unfold mainCleanup cleanup
  simp only []
  by_cases hkeep : (Getenv env "KEEP_RESOURCE").length = 0
  · simp only [hkeep, if_true]
    generalize p.ResourceGroupsBeginDelete _ _ _ _ = deleteReply
    cases deleteReply with
    | hang => exact .deleteStop g z r hkeep .blocked (by simp)
    | err e => exact .deleteStop g z r hkeep (.failed e) (by simp)
    | ok deletePoller =>
    simp only []
    generalize p.ResourceGroupsPollUntilDone _ _ _ = deletePollReply
    cases deletePollReply with
    | hang => exact .deletePollStop g z r hkeep .blocked (by simp)
    | err e => exact .deletePollStop g z r hkeep (.failed e) (by simp)
    | ok resp => exact .cleaned g z r hkeep
  · simp only [hkeep, if_false]
    exact .kept g z r hkeep

/-! ## Missing configuration -/

/-- C1: when `AZURE_SUBSCRIPTION_ID` is absent or empty, whatever the provider does,
the run stops through `log.Fatal` with the configuration message and its trace is
empty: no credential is requested and no create or delete call is issued. -/
theorem main_without_subscription (env : Env) (p : Provider)
    (h : env "AZURE_SUBSCRIPTION_ID" = none ∨ env "AZURE_SUBSCRIPTION_ID" = some "") :
    (main env p).exit = .fatal ∧
    (main env p).log = [.Fatal "AZURE_SUBSCRIPTION_ID is not set."] ∧
    (main env p).trace = [] := by
  have hsub : Getenv env "AZURE_SUBSCRIPTION_ID" = "" := by
    rcases h with h | h <;> simp [Getenv, h]
  simp [main, hsub]

/-- The configuration check at work, in the environment with no variable set. -/
theorem main_without_subscription_witness :
    (emptyEnv "AZURE_SUBSCRIPTION_ID" = none ∨ emptyEnv "AZURE_SUBSCRIPTION_ID" = some "") ∧
    (main emptyEnv (succeedingProvider (some "g") (some "z") (some "r"))).exit = .fatal ∧
    (main emptyEnv (succeedingProvider (some "g") (some "z") (some "r"))).log =
      [.Fatal "AZURE_SUBSCRIPTION_ID is not set."] ∧
    (main emptyEnv (succeedingProvider (some "g") (some "z") (some "r"))).trace = [] :=
  ⟨Or.inl rfl, main_without_subscription emptyEnv _ (Or.inl rfl)⟩

/-! ## The order of the calls -/

/-- C2: in every run, a private-zone create call (at position `n` of the trace) has
among the calls before it a resource-group create call that succeeded, and a
record-set create call has before it a private-zone create call that succeeded,
directly followed by the wait for its operation, which succeeded as well. -/
theorem creation_is_ordered (env : Env) (p : Provider) (n : Nat) (e : Event)
    (hn : (main env p).trace[n]? = some e) :
    (e.call.isPrivateZoneCreate = true →
      ∃ g ∈ (main env p).trace.take n,
        g.call.isResourceGroupCreate = true ∧ g.status = .succeeded) ∧
    (e.call.isRecordSetCreate = true →
      ∃ i z w, i + 1 < n ∧ (main env p).trace[i]? = some z ∧
        (main env p).trace[i + 1]? = some w ∧
        z.call.isPrivateZoneCreate = true ∧ z.status = .succeeded ∧
        w.call.isPrivateZonePoll = true ∧ w.status = .succeeded) := by
  have h := main_outcome env p
  generalize main env p = run at h hn
  cases h <;> rcases n with _ | _ | _ | _ | _ | _ | _ | n <;>
    simp only [List.getElem?_cons_zero, List.getElem?_cons_succ, List.getElem?_nil,
      Option.some.injEq, reduceCtorEq] at hn <;>
    subst hn <;>
    refine ⟨fun hz => ?_, fun hr => ?_⟩
  all_goals first
    | (simp [credentialEvent, groupEvent, zoneEvent, zonePollEvent, recordSetEvent, deleteEvent,
        deletePollEvent, Call.isPrivateZoneCreate] at hz; done)
    | (simp [credentialEvent, groupEvent, zoneEvent, zonePollEvent, recordSetEvent, deleteEvent,
        deletePollEvent, Call.isRecordSetCreate] at hr; done)
    | exact ⟨groupEvent _ .succeeded, List.mem_cons_of_mem _ (List.mem_cons_self _ _), rfl, rfl⟩
    | exact ⟨2, _, _, by omega, rfl, rfl, rfl, rfl, rfl, rfl⟩

/-- The ordering in a run where every call succeeds: the record-set create call is at
position 4, after the private-zone create call and its wait. -/
theorem creation_is_ordered_witness :
    (main (sampleEnv "sub-1" none)
        (succeedingProvider (some "g") (some "z") (some "r"))).trace[4]? =
      some (recordSetEvent "sub-1" .succeeded) ∧
    ∃ i z w, i + 1 < 4 ∧
      (main (sampleEnv "sub-1" none)
        (succeedingProvider (some "g") (some "z") (some "r"))).trace[i]? = some z ∧
      (main (sampleEnv "sub-1" none)
        (succeedingProvider (some "g") (some "z") (some "r"))).trace[i + 1]? = some w ∧
      z.call.isPrivateZoneCreate = true ∧ z.status = .succeeded ∧
      w.call.isPrivateZonePoll = true ∧ w.status = .succeeded :=
  ⟨by decide,
    (creation_is_ordered (sampleEnv "sub-1" none)
      (succeedingProvider (some "g") (some "z") (some "r")) 4
      (recordSetEvent "sub-1" .succeeded) (by decide)).2 rfl⟩

/-! ## Failures -/

/-- A call that failed ends the process through `log.Fatal`. -/
theorem stopExit_of_isFailed (s : Status) (h : s.isFailed = true) : stopExit s = .fatal := by
  cases s <;> simp_all [Status.isFailed, stopExit]

/-- A call of step 3 or before is neither a record-set create call nor a delete call, and
a call of step 4 or before is not a delete call. -/
theorem Call.step_bounds (c : Call) :
    (c.step ≤ 3 → c.isRecordSetCreate = false ∧ c.isDelete = false) ∧
    (c.step ≤ 4 → c.isDelete = false) := by
  cases c <;> simp [Call.step, Call.isRecordSetCreate, Call.isDelete]

/-- A call that returned an error is the last call of the run, no call of the run
belongs to a later step, and the process stops through `log.Fatal`. -/
theorem failed_call_is_last (env : Env) (p : Provider) (n : Nat) (e : Event)
    (hn : (main env p).trace[n]? = some e) (hf : e.status.isFailed = true) :
    (main env p).trace.length = n + 1 ∧
    (∀ later ∈ (main env p).trace, later.call.step ≤ e.call.step) ∧
    (main env p).exit = .fatal := by
  have h := main_outcome env p
  generalize main env p = run at h hn
  cases h <;> rcases n with _ | _ | _ | _ | _ | _ | _ | n <;>
    simp only [List.getElem?_cons_zero, List.getElem?_cons_succ, List.getElem?_nil,
      Option.some.injEq, reduceCtorEq] at hn <;>
    subst hn <;>
    first
    | (simp [credentialEvent, groupEvent, zoneEvent, zonePollEvent, recordSetEvent, deleteEvent,
        deletePollEvent, Status.isFailed] at hf; done)
    | exact ⟨rfl, by simp [credentialEvent, groupEvent, zoneEvent, zonePollEvent,
        recordSetEvent, deleteEvent, deletePollEvent, Call.step], stopExit_of_isFailed _ hf⟩

/-- C4: in every run, when a call of step N (1 the credential, 2 the resource group,
3 the private zone and its wait, 4 the record set, 5 the delete and its wait)
returns an error, that call is the last one issued and no call of a later step is in
the trace.  In particular, a failure of the private-zone step leaves the trace without
any record-set call and without any delete call, and a failure of the record-set step
leaves it without any delete call, whatever `KEEP_RESOURCE` is; the process stops
through `log.Fatal`. -/
theorem failure_stops_the_run (env : Env) (p : Provider) (n : Nat) (e : Event)
    (hn : (main env p).trace[n]? = some e) (hf : e.status.isFailed = true) :
    (main env p).trace.length = n + 1 ∧
    (∀ later ∈ (main env p).trace, later.call.step ≤ e.call.step) ∧
    (e.call.step = 3 → ∀ other ∈ (main env p).trace,
      other.call.isRecordSetCreate = false ∧ other.call.isDelete = false) ∧
    (e.call.step = 4 → ∀ other ∈ (main env p).trace, other.call.isDelete = false) ∧
    (main env p).exit = .fatal := by
  obtain ⟨hlen, hstep, hexit⟩ := failed_call_is_last env p n e hn hf
  refine ⟨hlen, hstep, fun h3 other ho => ?_, fun h4 other ho => ?_, hexit⟩
  · exact (Call.step_bounds other.call).1 (h3 ▸ hstep other ho)
  · exact (Call.step_bounds other.call).2 (h4 ▸ hstep other ho)

/-- A run where the private zone fails while it is polled: the wait is the fourth and
last call, and neither a record set nor a delete is requested. -/
theorem failure_stops_the_run_witness :
    (main (sampleEnv "sub-1" none) (pollFailingProvider ⟨"zone failed"⟩)).trace[3]? =
      some (zonePollEvent (.failed ⟨"zone failed"⟩)) ∧
    (zonePollEvent (.failed ⟨"zone failed"⟩)).status.isFailed = true ∧
    (main (sampleEnv "sub-1" none) (pollFailingProvider ⟨"zone failed"⟩)).trace.length = 4 ∧
    (∀ other ∈ (main (sampleEnv "sub-1" none) (pollFailingProvider ⟨"zone failed"⟩)).trace,
      other.call.isRecordSetCreate = false ∧ other.call.isDelete = false) ∧
    (main (sampleEnv "sub-1" none) (pollFailingProvider ⟨"zone failed"⟩)).exit = .fatal :=
  have h := failure_stops_the_run (sampleEnv "sub-1" none) (pollFailingProvider ⟨"zone failed"⟩)
    3 (zonePollEvent (.failed ⟨"zone failed"⟩)) (by decide) (by decide)
  ⟨by decide, by decide, h.1, h.2.2.1 rfl, h.2.2.2.2⟩

/-! ## Deletion -/

/-- C7: in every run, every delete request in the trace is the delete of the resource
group `sample-resource-group` in the configured subscription; in particular none is a
delete of the private zone or of the record set. -/
theorem only_the_resource_group_is_deleted (env : Env) (p : Provider) (e : Event)
    (he : e ∈ (main env p).trace) (hd : e.call.isDelete = true) :
    e.call = .ResourceGroupsBeginDelete (Getenv env "AZURE_SUBSCRIPTION_ID")
      "sample-resource-group" := by
  have h := main_outcome env p
  generalize main env p = run at h he
  cases h <;>
    simp only [List.mem_cons, List.mem_singleton, List.not_mem_nil, or_false] at he <;>
    (try rcases he with rfl | rfl | rfl | rfl | rfl | rfl | rfl) <;>
    first
    | (simp [credentialEvent, groupEvent, zoneEvent, zonePollEvent, recordSetEvent,
        deletePollEvent, Call.isDelete] at hd; done)
    | rfl

/-- The delete request of a run where every call succeeds. -/
theorem only_the_resource_group_is_deleted_witness :
    deleteEvent "sub-1" .succeeded ∈
      (main (sampleEnv "sub-1" none)
        (succeedingProvider (some "g") (some "z") (some "r"))).trace ∧
    (deleteEvent "sub-1" .succeeded).call.isDelete = true ∧
    (deleteEvent "sub-1" .succeeded).call =
      .ResourceGroupsBeginDelete "sub-1" "sample-resource-group" :=
  ⟨by decide, by decide,
    only_the_resource_group_is_deleted (sampleEnv "sub-1" none)
      (succeedingProvider (some "g") (some "z") (some "r")) (deleteEvent "sub-1" .succeeded)
      (by decide) (by decide)⟩

/-! ## The four operations -/

/-- C6: each of `createResourceGroup`, `createPrivateZone`, `createRecordSets` and
`cleanup` hands an error `e` of its provider call, or of the wait for its long-running
operation, back unchanged with a nil pointer, and the calls it has issued are that call
once (after the one successful `Begin...` call, when the wait fails): nothing is tried
again. -/
theorem operations_return_the_error (p : Provider) (sub : String) (cred : TokenCredential)
    (h : List Event) (e : GoError) :
    (p.ResourceGroupsCreateOrUpdate h sub cred resourceGroupName ⟨none, some location⟩ = .err e →
      createResourceGroup p sub cred h =
        (some (none, some e), h ++ [groupEvent sub (.failed e)])) ∧
    (p.PrivateZonesBeginCreateOrUpdate h sub cred resourceGroupName privateZoneName
        ⟨none, some location⟩ = .err e →
      createPrivateZone p sub cred h =
        (some (none, some e), h ++ [zoneEvent sub (.failed e)])) ∧
    (∀ poller, p.PrivateZonesBeginCreateOrUpdate h sub cred resourceGroupName privateZoneName
        ⟨none, some location⟩ = .ok poller →
      p.PrivateZonesPollUntilDone (h ++ [zoneEvent sub .succeeded]) poller pollSeconds = .err e →
      createPrivateZone p sub cred h =
        (some (none, some e), h ++ [zoneEvent sub .succeeded, zonePollEvent (.failed e)])) ∧
    (p.RecordSetsCreateOrUpdate h sub cred resourceGroupName privateZoneName .A
        relativeRecordSetName ⟨none, some ⟨[]⟩⟩ = .err e →
      createRecordSets p sub cred h =
        (some (none, some e), h ++ [recordSetEvent sub (.failed e)])) ∧
    (p.ResourceGroupsBeginDelete h sub cred resourceGroupName = .err e →
      cleanup p sub cred h = (some (none, some e), h ++ [deleteEvent sub (.failed e)])) ∧
    (∀ poller, p.ResourceGroupsBeginDelete h sub cred resourceGroupName = .ok poller →
      p.ResourceGroupsPollUntilDone (h ++ [deleteEvent sub .succeeded]) poller pollSeconds =
        .err e →
      cleanup p sub cred h =
        (some (none, some e), h ++ [deleteEvent sub .succeeded, deletePollEvent (.failed e)])) := by
  refine ⟨fun h1 => ?_, fun h1 => ?_, fun poller h1 h2 => ?_, fun h1 => ?_, fun h1 => ?_,
    fun poller h1 h2 => ?_⟩
  · simp [createResourceGroup, h1, groupEvent]
  · simp [createPrivateZone, h1, zoneEvent]
  · simp only [zoneEvent] at h2
    simp [createPrivateZone, h1, h2, zoneEvent, zonePollEvent]
  · simp [createRecordSets, h1, recordSetEvent]
  · simp [cleanup, h1, deleteEvent]
  · simp only [deleteEvent] at h2
    simp [cleanup, h1, h2, deleteEvent, deletePollEvent]

/-- The four operations against a provider that rejects every request, and against one
whose long-running operations fail while they are polled. -/
theorem operations_return_the_error_witness :
    createResourceGroup (failingProvider ⟨"denied"⟩) "sub-1" ⟨"token"⟩ [] =
      (some (none, some ⟨"denied"⟩), [groupEvent "sub-1" (.failed ⟨"denied"⟩)]) ∧
    createPrivateZone (failingProvider ⟨"denied"⟩) "sub-1" ⟨"token"⟩ [] =
      (some (none, some ⟨"denied"⟩), [zoneEvent "sub-1" (.failed ⟨"denied"⟩)]) ∧
    createPrivateZone (pollFailingProvider ⟨"denied"⟩) "sub-1" ⟨"token"⟩ [] =
      (some (none, some ⟨"denied"⟩),
        [zoneEvent "sub-1" .succeeded, zonePollEvent (.failed ⟨"denied"⟩)]) ∧
    createRecordSets (failingProvider ⟨"denied"⟩) "sub-1" ⟨"token"⟩ [] =
      (some (none, some ⟨"denied"⟩), [recordSetEvent "sub-1" (.failed ⟨"denied"⟩)]) ∧
    cleanup (failingProvider ⟨"denied"⟩) "sub-1" ⟨"token"⟩ [] =
      (some (none, some ⟨"denied"⟩), [deleteEvent "sub-1" (.failed ⟨"denied"⟩)]) ∧
    cleanup (pollFailingProvider ⟨"denied"⟩) "sub-1" ⟨"token"⟩ [] =
      (some (none, some ⟨"denied"⟩),
        [deleteEvent "sub-1" .succeeded, deletePollEvent (.failed ⟨"denied"⟩)]) :=
  have f := operations_return_the_error (failingProvider ⟨"denied"⟩) "sub-1" ⟨"token"⟩ []
    ⟨"denied"⟩
  have g := operations_return_the_error (pollFailingProvider ⟨"denied"⟩) "sub-1" ⟨"token"⟩ []
    ⟨"denied"⟩
  ⟨f.1 rfl, f.2.1 rfl, g.2.2.1 _ rfl rfl, f.2.2.2.1 rfl, f.2.2.2.2.1 rfl,
    g.2.2.2.2.2 _ rfl rfl⟩

/-! ## Runs that end normally, and the progress lines -/

/-- A run that ends normally has issued every call with success: with `KEEP_RESOURCE`
non-empty it stops after the record set, with three progress lines, and otherwise after
the delete, with the line of the cleanup as the fourth. -/
theorem normal_run_is_complete (env : Env) (p : Provider)
    (h : (main env p).exit = .normal) :
    ∃ g z r,
      ((Getenv env "KEEP_RESOURCE").length ≠ 0 ∧
        main env p = ⟨[credentialEvent .succeeded,
          groupEvent (Getenv env "AZURE_SUBSCRIPTION_ID") .succeeded,
          zoneEvent (Getenv env "AZURE_SUBSCRIPTION_ID") .succeeded, zonePollEvent .succeeded,
          recordSetEvent (Getenv env "AZURE_SUBSCRIPTION_ID") .succeeded],
          [groupLine g, zoneLine z, recordSetLine r], .normal⟩) ∨
      ((Getenv env "KEEP_RESOURCE").length = 0 ∧
        main env p = ⟨[credentialEvent .succeeded,
          groupEvent (Getenv env "AZURE_SUBSCRIPTION_ID") .succeeded,
          zoneEvent (Getenv env "AZURE_SUBSCRIPTION_ID") .succeeded, zonePollEvent .succeeded,
          recordSetEvent (Getenv env "AZURE_SUBSCRIPTION_ID") .succeeded,
          deleteEvent (Getenv env "AZURE_SUBSCRIPTION_ID") .succeeded,
          deletePollEvent .succeeded],
          [groupLine g, zoneLine z, recordSetLine r, cleanedLine], .normal⟩) := by
  have ho := main_outcome env p
  generalize main env p = run at ho h
  have hstop : ∀ s : Status, stopExit s ≠ .normal := by
    intro s; cases s <;> simp [stopExit]
  cases ho with
  | kept g z r hkeep => exact ⟨g, z, r, Or.inl ⟨hkeep, rfl⟩⟩
  | cleaned g z r hkeep => exact ⟨g, z, r, Or.inr ⟨hkeep, rfl⟩⟩
  | noSubscription => simp at h
  | groupNoID => simp at h
  | zoneNoID => simp at h
  | recordSetNoID => simp at h
  | credentialStop s => exact absurd h (hstop s)
  | groupStop s => exact absurd h (hstop s)
  | zoneStop _ s => exact absurd h (hstop s)
  | zonePollStop _ s => exact absurd h (hstop s)
  | recordSetStop _ _ s => exact absurd h (hstop s)
  | deleteStop _ _ _ _ s => exact absurd h (hstop s)
  | deletePollStop _ _ _ _ s => exact absurd h (hstop s)

/-- The error of a call that failed is the last line of the log, written by
`log.Fatal`. -/
theorem failed_call_is_printed (env : Env) (p : Provider) (n : Nat) (c : Call) (err : GoError)
    (hn : (main env p).trace[n]? = some ⟨c, .failed err⟩) :
    (main env p).log.getLast? = some (.Fatal err.message) := by
  have h := main_outcome env p
  generalize main env p = run at h hn
  cases h <;> rcases n with _ | _ | _ | _ | _ | _ | _ | n <;>
    simp only [List.getElem?_cons_zero, List.getElem?_cons_succ, List.getElem?_nil,
      Option.some.injEq, reduceCtorEq, credentialEvent, groupEvent, zoneEvent, zonePollEvent,
      recordSetEvent, deleteEvent, deletePollEvent, Event.mk.injEq, and_false] at hn <;>
    obtain ⟨-, rfl⟩ := hn <;>
    simp [stopLog]

/-- A run in which every call issued succeeded, in an environment with a subscription,
ends normally or by the panic of a nil identifier. -/
theorem all_succeeded_run (env : Env) (p : Provider)
    (hsub : (Getenv env "AZURE_SUBSCRIPTION_ID").length ≠ 0)
    (h : ∀ e ∈ (main env p).trace, e.status = .succeeded) :
    (main env p).exit = .normal ∨ (main env p).exit = .panic := by
  have ho := main_outcome env p
  generalize main env p = run at ho h
  cases ho <;> first
    | exact absurd ‹_› hsub
    | exact Or.inl rfl
    | exact Or.inr rfl
    | (simp [credentialEvent, groupEvent, zoneEvent, zonePollEvent, recordSetEvent, deleteEvent,
        deletePollEvent] at h
       contradiction)

/-- Unless the run panics, its log holds one progress line for each completed step. -/
theorem progress_lines_count (env : Env) (p : Provider) (h : (main env p).exit ≠ .panic) :
    (progressLines (main env p).log).length = completedSteps (main env p).trace := by
  have ho := main_outcome env p
  generalize main env p = run at ho h
  cases ho <;> first
    | exact absurd rfl h
    | (rename_i s hs
       cases s <;>
         simp_all [progressLines, completedSteps, credentialEvent, groupEvent, zoneEvent,
           zonePollEvent, recordSetEvent, deleteEvent, deletePollEvent, groupLine, zoneLine,
           recordSetLine, cleanedLine, LogLine.isProgress, stopLog, Call.isResourceGroupCreate,
           Call.isPrivateZonePoll, Call.isRecordSetCreate, List.filter, pollSeconds])
    | simp [progressLines, completedSteps, credentialEvent, groupEvent, zoneEvent,
        zonePollEvent, recordSetEvent, deleteEvent, deletePollEvent, groupLine, zoneLine,
        recordSetLine, cleanedLine, LogLine.isProgress, Call.isResourceGroupCreate,
        Call.isPrivateZonePoll, Call.isRecordSetCreate, List.filter, pollSeconds]

/-- A progress line of a create step is not the line of the cleanup. -/
theorem cleanedLine_ne (id : String) :
    groupLine id ≠ cleanedLine ∧ zoneLine id ≠ cleanedLine ∧ recordSetLine id ≠ cleanedLine := by
  refine ⟨?_, ?_, ?_⟩ <;>
    simp [groupLine, zoneLine, recordSetLine, cleanedLine, String.ext_iff]

/-- When the record set was created and the run does not panic: with `KEEP_RESOURCE`
unset or empty the trace has exactly one delete request, issued after the record-set
create call, and with `KEEP_RESOURCE` non-empty it has none and the log has no line of
the cleanup. -/
theorem cleanup_follows_record_sets (env : Env) (p : Provider)
    (hr : recordSetEvent (Getenv env "AZURE_SUBSCRIPTION_ID") .succeeded ∈ (main env p).trace)
    (hp : (main env p).exit ≠ .panic) :
    ((Getenv env "KEEP_RESOURCE").length = 0 →
      ((main env p).trace.filter fun e => e.call.isDelete).length = 1 ∧
      ∃ (i j : Nat) (d : Event), i < j ∧
        (main env p).trace[i]? =
          some (recordSetEvent (Getenv env "AZURE_SUBSCRIPTION_ID") .succeeded) ∧
        (main env p).trace[j]? = some d ∧ d.call.isDelete = true) ∧
    ((Getenv env "KEEP_RESOURCE").length ≠ 0 →
      ((main env p).trace.filter fun e => e.call.isDelete) = [] ∧
      cleanedLine ∉ (main env p).log) := by
  have ho := main_outcome env p
  generalize main env p = run at ho hr hp
  cases ho <;>
    first
    | exact absurd rfl hp
    | (simp [credentialEvent, groupEvent, zoneEvent, zonePollEvent, recordSetEvent] at hr; done)
    | (simp [credentialEvent, groupEvent, zoneEvent, zonePollEvent, recordSetEvent] at hr
       subst hr
       contradiction)
    | (refine ⟨fun hk => absurd hk ‹_›, fun _ => ⟨?_, ?_⟩⟩
       · simp [credentialEvent, groupEvent, zoneEvent, zonePollEvent, recordSetEvent,
           Call.isDelete, List.filter]
       · simp [(cleanedLine_ne _).1.symm, (cleanedLine_ne _).2.1.symm,
           (cleanedLine_ne _).2.2.symm])
    | (refine ⟨fun _ => ⟨?_, 4, 5, _, by omega, rfl, rfl, rfl⟩, fun hk => absurd ‹_› hk⟩
       simp [credentialEvent, groupEvent, zoneEvent, zonePollEvent, recordSetEvent, deleteEvent,
         deletePollEvent, Call.isDelete, List.filter])

/-! ## Independence of the values returned -/

/-- From the read of `KEEP_RESOURCE` on, two providers with the same verdicts are sent
the same calls. -/
theorem mainCleanup_same_calls (env : Env) (p q : Provider) (hs : SameVerdicts p q)
    (sub : String) (c d : TokenCredential) (h : List Event) (l m : List LogLine) :
    (mainCleanup env p sub c h l).trace.map Event.call =
      (mainCleanup env q sub d h m).trace.map Event.call := by
  unfold mainCleanup cleanup
  simp only []
  by_cases hk : (Getenv env "KEEP_RESOURCE").length = 0
  · simp only [hk, if_true]
    have h1 := hs.2.2.2.2.2.1 h sub c d resourceGroupName
    generalize p.ResourceGroupsBeginDelete h sub c resourceGroupName = a at h1 ⊢
    generalize q.ResourceGroupsBeginDelete h sub d resourceGroupName = b at h1 ⊢
    cases a <;> cases b <;> simp [Reply.verdict] at h1 <;> try simp
    rename_i x y
    have h2 := hs.2.2.2.2.2.2
      (h ++ [⟨Call.ResourceGroupsBeginDelete sub resourceGroupName, .succeeded⟩]) x y pollSeconds
    generalize p.ResourceGroupsPollUntilDone _ x pollSeconds = a at h2 ⊢
    generalize q.ResourceGroupsPollUntilDone _ y pollSeconds = b at h2 ⊢
    cases a <;> cases b <;> simp [Reply.verdict] at h2 <;> simp
  · simp [hk]

/-- From the call of `createRecordSets` on, two providers with the same verdicts are
sent the same calls, unless a run panics. -/
theorem mainRecordSets_same_calls (env : Env) (p q : Provider) (hs : SameVerdicts p q)
    (sub : String) (c d : TokenCredential) (h : List Event) (l m : List LogLine)
    (hp : (mainRecordSets env p sub c h l).exit ≠ .panic)
    (hq : (mainRecordSets env q sub d h m).exit ≠ .panic) :
    (mainRecordSets env p sub c h l).trace.map Event.call =
      (mainRecordSets env q sub d h m).trace.map Event.call := by
  unfold mainRecordSets createRecordSets at hp hq ⊢
  simp only [] at hp hq ⊢
  have h1 := hs.2.2.2.2.1 h sub c d resourceGroupName privateZoneName .A relativeRecordSetName
    ⟨none, some ⟨[]⟩⟩
  generalize p.RecordSetsCreateOrUpdate h sub c resourceGroupName privateZoneName .A
    relativeRecordSetName ⟨none, some ⟨[]⟩⟩ = a at h1 hp ⊢
  generalize q.RecordSetsCreateOrUpdate h sub d resourceGroupName privateZoneName .A
    relativeRecordSetName ⟨none, some ⟨[]⟩⟩ = b at h1 hq ⊢
  cases a <;> cases b <;> simp [Reply.verdict] at h1 <;> try simp
  rename_i x y
  simp only [] at hp hq
  cases hx : x.ID <;> simp only [hx] at hp ⊢ <;> try exact absurd rfl hp
  cases hy : y.ID <;> simp only [hy] at hq ⊢ <;> try exact absurd rfl hq
  exact mainCleanup_same_calls env p q hs sub c d _ _ _

/-- From the call of `createPrivateZone` on, two providers with the same verdicts are
sent the same calls, unless a run panics. -/
theorem mainPrivateZone_same_calls (env : Env) (p q : Provider) (hs : SameVerdicts p q)
    (sub : String) (c d : TokenCredential) (h : List Event) (l m : List LogLine)
    (hp : (mainPrivateZone env p sub c h l).exit ≠ .panic)
    (hq : (mainPrivateZone env q sub d h m).exit ≠ .panic) :
    (mainPrivateZone env p sub c h l).trace.map Event.call =
      (mainPrivateZone env q sub d h m).trace.map Event.call := by
  unfold mainPrivateZone createPrivateZone at hp hq ⊢
  simp only [] at hp hq ⊢
  have h1 := hs.2.2.1 h sub c d resourceGroupName privateZoneName ⟨none, some location⟩
  generalize p.PrivateZonesBeginCreateOrUpdate h sub c resourceGroupName privateZoneName
    ⟨none, some location⟩ = a at h1 hp ⊢
  generalize q.PrivateZonesBeginCreateOrUpdate h sub d resourceGroupName privateZoneName
    ⟨none, some location⟩ = b at h1 hq ⊢
  cases a <;> cases b <;> simp [Reply.verdict] at h1 <;> try simp
  rename_i x y
  simp only [] at hp hq
  have h2 := hs.2.2.2.1
    (h ++ [⟨Call.PrivateZonesBeginCreateOrUpdate sub resourceGroupName privateZoneName
      ⟨none, some location⟩, .succeeded⟩]) x y pollSeconds
  generalize p.PrivateZonesPollUntilDone _ x pollSeconds = a at h2 hp ⊢
  generalize q.PrivateZonesPollUntilDone _ y pollSeconds = b at h2 hq ⊢
  cases a <;> cases b <;> simp [Reply.verdict] at h2 <;> try simp
  rename_i u v
  simp only [] at hp hq
  cases hu : u.ID <;> simp only [hu] at hp ⊢ <;> try exact absurd rfl hp
  cases hv : v.ID <;> simp only [hv] at hq ⊢ <;> try exact absurd rfl hq
  simp only [List.append_assoc, List.singleton_append] at hp hq
  exact mainRecordSets_same_calls env p q hs sub c d _ _ _ hp hq

/-- From the call of `createResourceGroup` on, two providers with the same verdicts are
sent the same calls, unless a run panics. -/
theorem mainResourceGroup_same_calls (env : Env) (p q : Provider) (hs : SameVerdicts p q)
    (sub : String) (c d : TokenCredential) (h : List Event) (l m : List LogLine)
    (hp : (mainResourceGroup env p sub c h l).exit ≠ .panic)
    (hq : (mainResourceGroup env q sub d h m).exit ≠ .panic) :
    (mainResourceGroup env p sub c h l).trace.map Event.call =
      (mainResourceGroup env q sub d h m).trace.map Event.call := by
  unfold mainResourceGroup createResourceGroup at hp hq ⊢
  simp only [] at hp hq ⊢
  have h1 := hs.2.1 h sub c d resourceGroupName ⟨none, some location⟩
  generalize p.ResourceGroupsCreateOrUpdate h sub c resourceGroupName
    ⟨none, some location⟩ = a at h1 hp ⊢
  generalize q.ResourceGroupsCreateOrUpdate h sub d resourceGroupName
    ⟨none, some location⟩ = b at h1 hq ⊢
  cases a <;> cases b <;> simp [Reply.verdict] at h1 <;> try simp
  rename_i x y
  simp only [] at hp hq
  cases hx : x.ID <;> simp only [hx] at hp ⊢ <;> try exact absurd rfl hp
  cases hy : y.ID <;> simp only [hy] at hq ⊢ <;> try exact absurd rfl hq
  exact mainPrivateZone_same_calls env p q hs sub c d _ _ _ hp hq

/-- Two runs in the same environment against providers with the same verdicts issue the
same calls with the same arguments, unless one of them panics on a nil identifier. -/
theorem main_same_calls (env : Env) (p q : Provider) (hs : SameVerdicts p q)
    (hp : (main env p).exit ≠ .panic) (hq : (main env q).exit ≠ .panic) :
    (main env p).trace.map Event.call = (main env q).trace.map Event.call := by
  unfold main at hp hq ⊢
  simp only [] at hp hq ⊢
  by_cases hsub : (Getenv env "AZURE_SUBSCRIPTION_ID").length = 0
  · simp [hsub]
  simp only [hsub, if_false] at hp hq ⊢
  have h1 := hs.1 []
  generalize p.NewDefaultAzureCredential [] = a at h1 hp ⊢
  generalize q.NewDefaultAzureCredential [] = b at h1 hq ⊢
  cases a <;> cases b <;> simp [Reply.verdict] at h1 <;> try simp
  exact mainResourceGroup_same_calls env p q hs _ _ _ _ _ _ hp hq

/-! ## The end-to-end scenario -/

/-- With a subscription, `KEEP_RESOURCE` unset or empty and every issued call
successful, a run that does not panic issues the seven calls of the complete sequence
and writes four progress lines. -/
theorem succeeding_run_is_complete (env : Env) (p : Provider)
    (hsub : (Getenv env "AZURE_SUBSCRIPTION_ID").length ≠ 0)
    (hkeep : (Getenv env "KEEP_RESOURCE").length = 0)
    (hall : ∀ e ∈ (main env p).trace, e.status = .succeeded)
    (hp : (main env p).exit ≠ .panic) :
    (main env p).trace = [credentialEvent .succeeded,
      groupEvent (Getenv env "AZURE_SUBSCRIPTION_ID") .succeeded,
      zoneEvent (Getenv env "AZURE_SUBSCRIPTION_ID") .succeeded, zonePollEvent .succeeded,
      recordSetEvent (Getenv env "AZURE_SUBSCRIPTION_ID") .succeeded,
      deleteEvent (Getenv env "AZURE_SUBSCRIPTION_ID") .succeeded,
      deletePollEvent .succeeded] ∧
    (progressLines (main env p).log).length = 4 ∧
    (main env p).exit = .normal := by
  have hn : (main env p).exit = .normal := by
    rcases all_succeeded_run env p hsub hall with h | h
    · exact h
    · exact absurd h hp
  obtain ⟨g, z, r, ⟨hk, -⟩ | ⟨-, hrun⟩⟩ := normal_run_is_complete env p hn
  · exact absurd hkeep hk
  · rw [hrun]
    exact ⟨rfl, rfl, rfl⟩

/-- The scenario with identifiers in every response: the complete sequence of calls and
four progress lines. -/
theorem sample_run (g z r : String) :
    main (sampleEnv "sub-1" none) (succeedingProvider (some g) (some z) (some r)) =
      ⟨[credentialEvent .succeeded, groupEvent "sub-1" .succeeded,
        zoneEvent "sub-1" .succeeded, zonePollEvent .succeeded,
        recordSetEvent "sub-1" .succeeded, deleteEvent "sub-1" .succeeded,
        deletePollEvent .succeeded],
        [groupLine g, zoneLine z, recordSetLine r, cleanedLine], .normal⟩ := by
  rfl

/-- C5: with `AZURE_SUBSCRIPTION_ID` set to `sub-1`, `KEEP_RESOURCE` unset and a provider
whose every call succeeds but whose responses carry no identifier, the run does not
issue the four operations of the scenario: it stops by a panic after the creation of
the resource group, with no progress line. -/
theorem scenario_without_identifiers :
    (main (sampleEnv "sub-1" none) (succeedingProvider none none none)).trace =
      [credentialEvent .succeeded, groupEvent "sub-1" .succeeded] ∧
    progressLines (main (sampleEnv "sub-1" none) (succeedingProvider none none none)).log = [] ∧
    (main (sampleEnv "sub-1" none) (succeedingProvider none none none)).exit = .panic := by
  decide

/-- C3: with `KEEP_RESOURCE` unset, when the record set is created with success but its
response carries no identifier, the run stops by a panic at the progress line of the
record set: the trace ends with the successful record-set call and holds no delete
request. -/
theorem record_set_without_identifier :
    Getenv (sampleEnv "sub-1" none) "KEEP_RESOURCE" = "" ∧
    (main (sampleEnv "sub-1" none) (succeedingProvider (some "g") (some "z") none)).trace =
      [credentialEvent .succeeded, groupEvent "sub-1" .succeeded,
        zoneEvent "sub-1" .succeeded, zonePollEvent .succeeded,
        recordSetEvent "sub-1" .succeeded] ∧
    ((main (sampleEnv "sub-1" none) (succeedingProvider (some "g") (some "z") none)).trace.filter
      fun e => e.call.isDelete) = [] ∧
    (main (sampleEnv "sub-1" none) (succeedingProvider (some "g") (some "z") none)).exit =
      .panic := by
  decide

/-- C8: a run in which every issued call succeeds need not end normally: when the
response of the private zone carries no identifier, the four calls issued all succeed
and the process stops by a panic, before the record set is created. -/
theorem successful_steps_end_in_panic :
    (∀ e ∈ (main (sampleEnv "sub-1" (some "1"))
        (succeedingProvider (some "g") none (some "r"))).trace, e.status = .succeeded) ∧
    (main (sampleEnv "sub-1" (some "1"))
        (succeedingProvider (some "g") none (some "r"))).trace.length = 4 ∧
    (main (sampleEnv "sub-1" (some "1"))
        (succeedingProvider (some "g") none (some "r"))).exit = .panic := by
  decide

/-- C9: a successful response to the creation of the resource group whose identifier is
absent aborts the run: one create step is completed, the log holds no progress line, and
the process stops by a panic without issuing the next step. -/
theorem absent_identifier_aborts :
    (main (sampleEnv "sub-1" none) (succeedingProvider none (some "z") (some "r"))).trace =
      [credentialEvent .succeeded, groupEvent "sub-1" .succeeded] ∧
    completedSteps
      (main (sampleEnv "sub-1" none) (succeedingProvider none (some "z") (some "r"))).trace = 1 ∧
    (main (sampleEnv "sub-1" none) (succeedingProvider none (some "z") (some "r"))).log = [] ∧
    (main (sampleEnv "sub-1" none) (succeedingProvider none (some "z") (some "r"))).exit =
      .panic := by
  decide

/-- C10: two providers that agree on the verdict of every call and differ in the values
they return (the second one leaves the identifier of the record set out) are not sent
the same calls: the first run goes on to the delete of the resource group, the second
one stops by a panic after the record set. -/
theorem returned_values_change_the_calls :
    SameVerdicts (succeedingProvider (some "g") (some "z") (some "r"))
      (succeedingProvider (some "g") (some "z") none) ∧
    (main (sampleEnv "sub-1" none)
      (succeedingProvider (some "g") (some "z") (some "r"))).trace.map Event.call ≠
    (main (sampleEnv "sub-1" none)
      (succeedingProvider (some "g") (some "z") none)).trace.map Event.call ∧
    ((main (sampleEnv "sub-1" none)
      (succeedingProvider (some "g") (some "z") (some "r"))).trace.map Event.call).length = 7 ∧
    ((main (sampleEnv "sub-1" none)
      (succeedingProvider (some "g") (some "z") none)).trace.map Event.call).length = 5 := by
  refine ⟨⟨fun _ => rfl, fun _ _ _ _ _ _ => rfl, fun _ _ _ _ _ _ _ => rfl,
    fun _ _ _ _ => rfl, fun _ _ _ _ _ _ _ _ _ => rfl, fun _ _ _ _ _ => rfl,
    fun _ _ _ _ => rfl⟩, ?_, ?_, ?_⟩ <;> decide

end RecordSets
